import Mathlib

/-!
Verification development for the template-to-scene compilation pipeline of the
video_promo_maker repository. The definitions below are a shallow embedding of
the TypeScript source:

* `replaceVariables`, `fillTemplate` — from src/lib/brand.ts
* `processSection`, `processSections` (the per-section loop), `processTemplate`
  — from src/lib/template.ts (the active variant that dispatches text overlays
  by section index and composites the artist thumbnail)

External effects (AI image generation, text-overlay rendering, filesystem
existence checks, audio generation, template loading from disk) are modelled by
an `Env` record of oracles: each call's outcome is given by the environment,
which makes the control flow around failures explicit while keeping every
definition executable. Local deterministic sharp image writes (brand filter
pipeline, fallback canvas composites) are modelled as always succeeding; the
paths they produce and the fact that they were invoked are recorded in an
event trace.
-/

set_option maxRecDepth 4000

/-- A thrown JavaScript `Error`, carrying its message. -/
structure JsError where
  message : String
deriving DecidableEq, Repr

instance {ε α : Type} [DecidableEq ε] [DecidableEq α] : DecidableEq (Except ε α) :=
  fun a b =>
    match a, b with
    | .error e, .error f =>
      if h : e = f then .isTrue (by rw [h])
      else .isFalse (fun hc => h (by cases hc; rfl))
    | .error _, .ok _ => .isFalse (fun hc => Except.noConfusion hc)
    | .ok _, .error _ => .isFalse (fun hc => Except.noConfusion hc)
    | .ok x, .ok y =>
      if h : x = y then .isTrue (by rw [h])
      else .isFalse (fun hc => h (by cases hc; rfl))

/-- A JS `Record<string, string>` of runtime variables (user inputs). -/
def Vars : Type := String → Option String

/-- JS truthiness coercion for `x || dflt` on an optional string: `undefined`
and the empty string are falsy. -/
def jsOrStr : Option String → String → String
  | some s, d => if s = "" then d else s
  | none, d => d

/-- JS string interpolation of a possibly-undefined value. -/
def jsString : Option String → String
  | some s => s
  | none => "undefined"

/-- JS `x || dflt` for a possibly-undefined number (`0` is falsy). -/
def jsOrNum : Option ℚ → ℚ → ℚ
  | some x, d => if x = 0 then d else x
  | none, d => d

/-- JS `\w` character class: `[A-Za-z0-9_]`. -/
def isWordChar (c : Char) : Bool := c.isAlphanum || c = '_'

/-- Scanner for the global regex replace `text.replace(/\{(\w+)\}/g, subst)`:
at each position, greedily match `{` + word chars + `}`; on a match emit
`subst (vars key) literal` and continue after the match, otherwise emit the
character and continue.  `subst` receives the looked-up value and the literal
matched substring.
The extra `Nat` argument is structural-recursion fuel; with fuel at least the
list length the scan always finishes before the fuel does, since every step
consumes at least one character. -/
def scanFuel (vars : Vars) (subst : Option String → String → String) :
    Nat → List Char → List Char
  | _, [] => []
  | 0, l => l
  | fuel + 1, c :: rest =>
    if c = '{' then
      let w := rest.takeWhile isWordChar
      match rest.dropWhile isWordChar with
      | '}' :: r' =>
        if w.isEmpty then c :: scanFuel vars subst fuel rest
        else
          (subst (vars (String.mk w)) (String.mk ('{' :: (w ++ ['}'])))).data
            ++ scanFuel vars subst fuel r'
      | _ => c :: scanFuel vars subst fuel rest
    else c :: scanFuel vars subst fuel rest

/-- The scanner at adequate fuel. -/
def scanPlaceholders (vars : Vars) (subst : Option String → String → String)
    (l : List Char) : List Char :=
  scanFuel vars subst l.length l

/-- src/lib/brand.ts `replaceVariables`:
`text.replace(/\{(\w+)\}/g, (match, key) => variables[key] || match)`.
A placeholder is replaced by the variable value when that value is truthy,
otherwise the matched substring itself is kept. -/
def replaceVariables (text : String) (vars : Vars) : String :=
  String.mk (scanPlaceholders vars jsOrStr text.data)

/-- A template element (src/types/video.ts `VideoElement`), duck-typed on
`type` with optional payload fields. -/
structure VideoElement where
  type : String
  content : Option String := none
  style : Option String := none
  position : Option String := none
  animation : Option String := none
  color : Option String := none
  prompt : Option String := none
deriving DecidableEq, Repr

/-- A template section (src/types/video.ts `VideoSection`): the duration is
optional here because `processSection` guards it with `section.duration || 3`. -/
structure VideoSection where
  type : String
  duration : Option ℚ
  elements : List VideoElement
deriving DecidableEq, Repr

/-- src/types/video.ts `audioOptions` payload. -/
structure AudioOptions where
  duration : ℚ := 30
  fadeIn : ℚ := 1
  fadeOut : ℚ := 2
deriving DecidableEq, Repr

/-- A video template (src/types/video.ts `VideoTemplate`). -/
structure VideoTemplate where
  templateName : String
  templateType : String
  scriptTemplate : String
  sections : List VideoSection
  audioOptions : AudioOptions
deriving DecidableEq, Repr

/-- Brand font sizes (src/lib/brand.ts `FontSize`), restricted to the fields
the compiler reads. -/
structure FontSize where
  heading : ℚ
  subheading : ℚ
  body : ℚ
  caption : ℚ
deriving DecidableEq, Repr

/-- Brand image filter parameters (src/lib/brand.ts `ImageFilters`), restricted
to the fields the compiler reads. -/
structure ImageFilters where
  brightness : ℚ
  saturation : ℚ
  overlayColor : String
deriving DecidableEq, Repr

/-- Brand style guide (src/lib/brand.ts `BrandStyle`), restricted to the fields
the template pipeline reads. -/
structure BrandStyle where
  primaryColor : String
  accentColor : String
  tone : String
  fontFamily : String
  fontSize : FontSize
  imageFilters : ImageFilters
deriving DecidableEq, Repr

/-- src/lib/brand.ts `fillTemplate` body for one element:
`{...element, content: element.content ? replaceVariables(element.content, userInputs)
: undefined, prompt: element.prompt ? replaceVariables(element.prompt, userInputs)
: undefined}`. Note a falsy (empty/absent) `content` or `prompt` becomes
`undefined` in the copy. -/
def fillElement (userInputs : Vars) (element : VideoElement) : VideoElement :=
  { element with
    content :=
      match element.content with
      | some s => if s = "" then none else some (replaceVariables s userInputs)
      | none => none
    prompt :=
      match element.prompt with
      | some s => if s = "" then none else some (replaceVariables s userInputs)
      | none => none }

/-- src/lib/brand.ts `fillTemplate`: validates its inputs, then builds a fresh
template value, applying `replaceVariables` to the script template and to every
element's `content` and `prompt`.  The JS function receives the input template
by reference and performs no assignment into it; the embedding makes that
observable by returning, alongside the filled template, the value held by the
input reference after the call.  Of the runtime guards
(`!template || !template.sections || !template.scriptTemplate`, `!brandStyle`,
`!userInputs`) only the empty-`scriptTemplate` case is expressible over the
typed model (the others test for absent arguments). -/
def fillTemplate (template : VideoTemplate) (brandStyle : BrandStyle)
    (userInputs : Vars) : Except JsError (VideoTemplate × VideoTemplate) :=
  if template.scriptTemplate = "" then
    .error ⟨"Invalid template structure"⟩
  else
    .ok
      ({ templateName := template.templateName
         templateType := template.templateType
         scriptTemplate := replaceVariables template.scriptTemplate userInputs
         sections := template.sections.map fun sec =>
           { type := sec.type
             duration := sec.duration
             elements := sec.elements.map (fillElement userInputs) }
         audioOptions := template.audioOptions },
       template)


/-- The compiler's output record (src/lib/template.ts `SceneConfig`, restricted
to the fields the active variant populates). -/
structure SceneConfig where
  imagePath : String
  overlayText : String
  textPosition : String
  duration : ℚ
  animation : String
  bgColor : String
deriving DecidableEq, Repr

/-- Trace of invocations of external capabilities and of deterministic local
image writes, in program order. -/
inductive Event where
  /-- `generateTextOverlay(text, subtext, 1160, 1456, brandStyle, outputPath, opts)` -/
  | overlayRendered (text subtext : String) (width height : Nat) (outputPath : String)
  /-- `generateImages(styledPrompt)` was called. -/
  | imagesRequested (prompt : String)
  /-- sharp brand-filter pipeline wrote `section_{i}_branded.png` from a generated image. -/
  | brandedImageWrite (sectionIndex : Nat) (sourceImage outputPath : String)
  /-- catch-branch fallback: flat canvas + artist thumbnail composite written. -/
  | fallbackCanvasWrite (sectionIndex : Nat) (outputPath : String)
  /-- background-element branch: flat canvas + artist thumbnail composite written. -/
  | backgroundCanvasWrite (sectionIndex : Nat) (outputPath : String)
  /-- `default_scene.png` written by `processTemplate` before the section loop. -/
  | defaultSceneWrite (outputPath : String)
deriving DecidableEq, Repr

/-- The environment of external effects: every filesystem / network / renderer
call made by the pipeline is resolved through this record of oracles. -/
structure Env where
  /-- `loadTemplate` (src/lib/brand.ts): reads and validates a template JSON by
  type name; modelled as a capability since its internals are filesystem I/O. -/
  loadTemplate : String → Except JsError VideoTemplate
  /-- `generateImages(prompt)` (src/lib/images.ts): AI image generation, may
  throw or return an empty list. -/
  generateImages : String → Except JsError (List String)
  /-- `generateTextOverlay(text, subtext, …, outputPath, …)`
  (src/lib/text-overlay.ts): renders a text overlay PNG; the fixed arguments
  (1160, 1456, the brand style, the per-index style options) are not part of
  the oracle key. -/
  generateTextOverlay : String → String → String → Except JsError Unit
  /-- `existsSync(path)` from node:fs. -/
  existsSync : String → Bool
  /-- `generateAudio(script)` (src/lib/audio.ts). -/
  generateAudio : String → Except JsError String

/-- `path.join(a, b)` for the shapes used here (plain segments). -/
def pathJoin (a b : String) : String := a ++ "/" ++ b

/-- JS `String.prototype.toUpperCase` on the ASCII strings used here. -/
def toUpperCase (s : String) : String := String.mk (s.data.map Char.toUpper)

/-- The overlay output path `path.join(outputDir, text_overlay_(sectionIndex).png)`. -/
def overlayPath (outputDir : String) (sectionIndex : Nat) : String :=
  pathJoin outputDir ("text_overlay_" ++ toString sectionIndex ++ ".png")

/-- The branded image path `path.join(outputDir, section_(sectionIndex)_branded.png)`. -/
def brandedPath (outputDir : String) (sectionIndex : Nat) : String :=
  pathJoin outputDir ("section_" ++ toString sectionIndex ++ "_branded.png")

/-- The styled prompt built for an image element. -/
def styledPrompt (prompt : String) (brandStyle : BrandStyle) : String :=
  prompt ++ ", styled using " ++ brandStyle.primaryColor ++ " and " ++
    brandStyle.accentColor ++ " color scheme, " ++ brandStyle.tone ++ " feeling"

/-- The mutable locals of `processSection`'s element loop, plus the event
trace accumulated so far. -/
structure SectionState where
  bgImage : String
  bgColor : String
  animation : String
  events : List Event
deriving Repr

/-- Initial state of the element loop: `bgImage = ''`, `bgColor = ''`,
`animation = 'none'`. -/
def initialSectionState : SectionState :=
  { bgImage := "", bgColor := "", animation := "none", events := [] }

/-- One `generateTextOverlay` call plus its trace entry. -/
def callOverlay (env : Env) (text subtext outputPath : String)
    (st : SectionState) : Except JsError SectionState :=
  match env.generateTextOverlay text subtext outputPath with
  | .error e => .error e
  | .ok _ =>
      .ok { st with
              events := st.events ++ [.overlayRendered text subtext 1160 1456 outputPath] }

/-- The `element.type === 'text'` branch of `processSection`: dispatch on the
section index (0, 1, 2 — any other index renders nothing), then verify the
overlay file exists, throwing if not.  Section 0 reads
`userInputs.artistGenre.toUpperCase()`, which is a TypeError when the variable
is absent. -/
def processTextElement (env : Env) (sectionIndex : Nat) (outputDir : String)
    (userInputs : Vars) (st : SectionState) : Except JsError SectionState :=
  let textOverlayPath := overlayPath outputDir sectionIndex
  let rendered : Except JsError SectionState :=
    if sectionIndex = 0 then
      match userInputs "artistGenre" with
      | none =>
          .error ⟨"TypeError: Cannot read properties of undefined (reading toUpperCase)"⟩
      | some genre =>
          callOverlay env (jsString (userInputs "artistName")) (toUpperCase genre)
            textOverlayPath st
    else if sectionIndex = 1 then
      callOverlay env ("\"" ++ jsString (userInputs "mixTitle") ++ "\"") ""
        textOverlayPath st
    else if sectionIndex = 2 then
      callOverlay env "Underground Existence"
        (jsString (userInputs "mixDuration") ++ " Live Set") textOverlayPath st
    else .ok st
  match rendered with
  | .error e => .error e
  | .ok st' =>
      if env.existsSync textOverlayPath then .ok st'
      else .error ⟨"Failed to generate text overlay: " ++ textOverlayPath⟩

/-- The `element.type === 'image' && element.prompt` branch: build the styled
prompt, call `generateImages` inside a try/catch.  On success with at least one
image, run the sharp brand-filter + thumbnail composite (modelled as a
deterministic write) and point `bgImage` at the processed path; on success with
zero images do nothing further; on a thrown error, write the fallback canvas
composite and point `bgImage` at it.  This branch never throws. -/
def processImageElement (env : Env) (prompt : String) (sectionIndex : Nat)
    (outputDir : String) (brandStyle : BrandStyle) (st : SectionState) :
    SectionState :=
  let sp := styledPrompt prompt brandStyle
  let st := { st with events := st.events ++ [.imagesRequested sp] }
  match env.generateImages sp with
  | .ok [] => st
  | .ok (img0 :: _) =>
      let processedPath := brandedPath outputDir sectionIndex
      { st with
          bgImage := processedPath
          events := st.events ++ [.brandedImageWrite sectionIndex img0 processedPath] }
  | .error _ =>
      let processedPath := brandedPath outputDir sectionIndex
      { st with
          bgImage := processedPath
          events := st.events ++ [.fallbackCanvasWrite sectionIndex processedPath] }

/-- The `element.type === 'background' && element.color` branch: record the
color and write the flat canvas + thumbnail composite, pointing `bgImage` at
it. -/
def processBackgroundElement (color : String) (sectionIndex : Nat)
    (outputDir : String) (st : SectionState) : SectionState :=
  let processedPath := brandedPath outputDir sectionIndex
  { st with
      bgColor := color
      bgImage := processedPath
      events := st.events ++ [.backgroundCanvasWrite sectionIndex processedPath] }

/-- One iteration of the element loop in `processSection`
(src/lib/template.ts lines 358–501): `if text … else if image && prompt …
else if background && color … else skip`. -/
def processElement (env : Env) (element : VideoElement) (sectionIndex : Nat)
    (outputDir : String) (brandStyle : BrandStyle) (userInputs : Vars)
    (st : SectionState) : Except JsError SectionState :=
  if element.type = "text" then
    processTextElement env sectionIndex outputDir userInputs st
  else if element.type = "image" then
    match element.prompt with
    | some p =>
        if p = "" then .ok st
        else .ok (processImageElement env p sectionIndex outputDir brandStyle st)
    | none => .ok st
  else if element.type = "background" then
    match element.color with
    | some c =>
        if c = "" then .ok st
        else .ok (processBackgroundElement c sectionIndex outputDir st)
    | none => .ok st
  else .ok st

/-- The element loop of `processSection`, aborting at the first thrown error. -/
def processElements (env : Env) (elements : List VideoElement)
    (sectionIndex : Nat) (outputDir : String) (brandStyle : BrandStyle)
    (userInputs : Vars) (st : SectionState) : Except JsError SectionState :=
  match elements with
  | [] => .ok st
  | e :: rest =>
    match processElement env e sectionIndex outputDir brandStyle userInputs st with
    | .error err => .error err
    | .ok st' => processElements env rest sectionIndex outputDir brandStyle userInputs st'

/-- The scene appended at the end of `processSection`:
`{imagePath: bgImage || '', overlayText: '', textPosition: 'center',
duration: section.duration || 3, animation, bgColor: bgColor || '#000000'}`.
(`bgImage || ''` is the identity on strings.) -/
def mkScene (sec : VideoSection) (st : SectionState) : SceneConfig :=
  { imagePath := st.bgImage
    overlayText := ""
    textPosition := "center"
    duration := jsOrNum sec.duration 3
    animation := st.animation
    bgColor := if st.bgColor = "" then "#000000" else st.bgColor }

/-- src/lib/template.ts `processSection`: run the element loop from the initial
state, then append exactly one scene.  The embedding returns the scene instead
of pushing it onto the caller's array, together with the section's event
trace. -/
def processSection (env : Env) (sec : VideoSection) (sectionIndex : Nat)
    (outputDir : String) (brandStyle : BrandStyle) (userInputs : Vars) :
    Except JsError (SceneConfig × List Event) :=
  match processElements env sec.elements sectionIndex outputDir brandStyle userInputs
      initialSectionState with
  | .error e => .error e
  | .ok st => .ok (mkScene sec st, st.events)

/-- The section loop of `processTemplate` (src/lib/template.ts lines 324–328):
process the sections sequentially, threading the running index, collecting one
scene per section; a thrown error aborts the remaining sections. -/
def processSections (env : Env) (sections : List VideoSection)
    (sectionIndex : Nat) (outputDir : String) (brandStyle : BrandStyle)
    (userInputs : Vars) : Except JsError (List SceneConfig × List Event) :=
  match sections with
  | [] => .ok ([], [])
  | s :: rest =>
    match processSection env s sectionIndex outputDir brandStyle userInputs with
    | .error e => .error e
    | .ok (scene, evs) =>
      match processSections env rest (sectionIndex + 1) outputDir brandStyle userInputs with
      | .error e => .error e
      | .ok (scenes, evs') => .ok (scene :: scenes, evs ++ evs')

/-- The hard-coded default script of the active `processTemplate` variant. -/
def defaultScript (userInputs : Vars) : String :=
  "Welcome to " ++ jsString (userInputs "artistName") ++
    "'s latest mix. Experience the unique sound and style that has made them a standout artist in "
    ++ jsString (userInputs "artistGenre") ++ ". Their mix \"" ++
    jsString (userInputs "mixTitle") ++
    "\" showcases their signature sound and technical mastery. Don't miss out on this incredible musical journey."

/-- `path.join('assets/artist_thumbnails', userInputs.artistImage || 'default.jpg')`. -/
def thumbnailPath (userInputs : Vars) : String :=
  pathJoin "assets/artist_thumbnails" (jsOrStr (userInputs "artistImage") "default.jpg")

/-- The fixed scratch directory `./output/scenes`. -/
def outputScenesDir : String := "./output/scenes"

/-- `processTemplate`'s return value `{script, scenes, audioPath}` plus the
event trace. -/
structure ProcessResult where
  script : String
  scenes : List SceneConfig
  audioPath : String
  events : List Event
deriving Repr

/-- src/lib/template.ts `processTemplate` (active variant): load the template,
fill it, build the default script, check the artist thumbnail exists (throwing
if not), write the default scene, run the section loop, then generate audio.
The thumbnail resize and the output-directory bootstrap are deterministic local
operations not reflected in the trace. -/
def processTemplate (env : Env) (templateType : String)
    (userInputs : Vars) (brandStyle : BrandStyle) : Except JsError ProcessResult :=
  match env.loadTemplate templateType with
  | .error e => .error e
  | .ok template =>
    match fillTemplate template brandStyle userInputs with
    | .error e => .error e
    | .ok (filledTemplate, _) =>
      let script := defaultScript userInputs
      let artistThumbnailPath := thumbnailPath userInputs
      if env.existsSync artistThumbnailPath then
        let ev0 := [Event.defaultSceneWrite (pathJoin outputScenesDir "default_scene.png")]
        match processSections env filledTemplate.sections 0 outputScenesDir brandStyle
            userInputs with
        | .error e => .error e
        | .ok (scenes, evs) =>
          match env.generateAudio script with
          | .error e => .error e
          | .ok audioPath =>
            .ok { script := script, scenes := scenes, audioPath := audioPath
                  events := ev0 ++ evs }
      else
        .error ⟨"Artist thumbnail not found at " ++ artistThumbnailPath ++
                  ". Please ensure the image exists."⟩

/-! ### Modelled-from-spec definition for the amended resolver claim -/

/-- Modelled from the spec (§4.1, amended): the substitution rule "replace the
occurrence with the map's value whenever the key is present with a non-empty
value; leave the occurrence verbatim when the key is absent or its value is
empty". -/
def specSubst : Option String → String → String
  | some v, lit => if v = "" then lit else v
  | none, lit => lit

/-- Modelled from the spec (§4.1, amended): the resolver under `specSubst`. -/
def resolveSpec (text : String) (vars : Vars) : String :=
  String.mk (scanPlaceholders vars specSubst text.data)

/-! ### Concrete fixtures -/

/-- Event filter: the overlay-renderer invocations of a trace. -/
def isOverlayEvent : Event → Bool
  | .overlayRendered _ _ _ _ _ => true
  | _ => false

/-- Event filter: the catch-branch fallback canvas writes of a trace. -/
def isFallbackEvent : Event → Bool
  | .fallbackCanvasWrite _ _ => true
  | _ => false

/-- A concrete brand style. -/
def brandA : BrandStyle :=
  { primaryColor := "#9b87f5"
    accentColor := "#D946EF"
    tone := "dark"
    fontFamily := "Anton"
    fontSize := { heading := 72, subheading := 48, body := 36, caption := 24 }
    imageFilters := { brightness := 1, saturation := 1, overlayColor := "#1A1F2C" } }

/-- The scenario-A user inputs. -/
def uiA : Vars := fun k =>
  if k = "artistName" then some "AKILA"
  else if k = "artistGenre" then some "house"
  else if k = "mixTitle" then some "...Head Ass!!!"
  else if k = "mixDuration" then some "60:00"
  else none

/-- A three-section artist-promo template with one text element per section
(scenario A: durations [3, 22, 5]). -/
def templateA : VideoTemplate :=
  { templateName := "Artist Promo"
    templateType := "artist-promo"
    scriptTemplate := "Promote {artistName} mix {mixTitle}"
    sections :=
      [ { type := "intro", duration := some 3
          elements := [{ type := "text", content := some "{artistName}"
                         style := some "heading" }] }
      , { type := "highlight", duration := some 22
          elements := [{ type := "text", content := some "{mixTitle}"
                         style := some "heading" }] }
      , { type := "outro", duration := some 5
          elements := [{ type := "text", content := some "{mixDuration}"
                         style := some "body" }] } ]
    audioOptions := {} }

/-- An environment in which every external call succeeds. -/
def envA : Env :=
  { loadTemplate := fun t =>
      if t = "artist-promo" then .ok templateA else .error ⟨"Template for " ++ t ++ " not found"⟩
    generateImages := fun _ => .ok ["output/generated_0.png"]
    generateTextOverlay := fun _ _ _ => .ok ()
    existsSync := fun _ => true
    generateAudio := fun _ => .ok "output/audio/promo.mp3" }

/-- A section holding a single image element. -/
def secImage : VideoSection :=
  { type := "highlight", duration := some 22
    elements := [{ type := "image", prompt := some "underground club scene" }] }

/-- A section with no elements (used as a minimal witness input). -/
def secW : VideoSection := { type := "intro", duration := some 3, elements := [] }

/-- The scene the compiler produces for `secW`. -/
def sceneW : SceneConfig :=
  { imagePath := "", overlayText := "", textPosition := "center", duration := 3
    animation := "none", bgColor := "#000000" }

/-- `envA` with an image generator that returns zero results (without throwing). -/
def envEmptyImages : Env := { envA with generateImages := fun _ => .ok [] }

/-- `envA` with an image generator that always throws. -/
def envThrowImages : Env :=
  { envA with generateImages := fun _ => .error ⟨"Rate limit exceeded"⟩ }

/-- A template with zero sections. -/
def templateEmpty : VideoTemplate :=
  { templateName := "Empty", templateType := "empty-promo"
    scriptTemplate := "script", sections := [], audioOptions := {} }

/-- `envA` but loading the zero-section template. -/
def envEmptyTpl : Env := { envA with loadTemplate := fun _ => .ok templateEmpty }

/-- `envA` with a filesystem on which no path exists. -/
def envNoFiles : Env := { envA with existsSync := fun _ => false }

/-- A variable map binding key `a` to the empty string. -/
def varsEmptyVal : Vars := fun k => if k = "a" then some "" else none

/-- A text element with no content of its own (overlay text is index-dispatched). -/
def textElemW : VideoElement := { type := "text", content := some "{artistName}" }

/-- A fourth, index-3 section holding a text element. -/
def secBeyond : VideoSection :=
  { type := "extra", duration := some 4, elements := [textElemW] }

/-- A minimal template whose script has no placeholders. -/
def templateW : VideoTemplate :=
  { templateName := "W", templateType := "w", scriptTemplate := "hi"
    sections := [], audioOptions := {} }

/-! ### Helper lemmas -/

/-- `processTemplate` with a loadable template, a non-empty script and a missing
artist thumbnail throws before the section loop. -/
theorem processTemplate_thumb_missing (env : Env) (templateType : String)
    (ui : Vars) (bs : BrandStyle) (t : VideoTemplate)
    (hload : env.loadTemplate templateType = .ok t)
    (hscript : t.scriptTemplate ≠ "")
    (hex : env.existsSync (thumbnailPath ui) = false) :
    processTemplate env templateType ui bs
      = .error ⟨"Artist thumbnail not found at " ++ thumbnailPath ui ++
                  ". Please ensure the image exists."⟩ := by
  unfold processTemplate
  rw [hload]
  dsimp only
  unfold fillTemplate
  rw [if_neg hscript]
  dsimp only
  simp only [hex, Bool.false_eq_true, if_false]

/-! ### Claim theorems -/

/-- C3 counterexample: the key `a` is present in the map (bound to the empty
string), yet `replaceVariables` leaves the occurrence `{a}` verbatim instead of
replacing it with the value, because the source tests `variables[key] || match`
and the empty string is falsy. -/
theorem C3_counterexample :
    varsEmptyVal "a" = some "" ∧
      replaceVariables "{a}" varsEmptyVal = "{a}" := by
  constructor
  · decide
  · decide

/-- C3 (amended): `replaceVariables` replaces each `{identifier}` occurrence
with the map's value whenever the key is present *with a non-empty value*, and
leaves the occurrence verbatim when the key is absent or its value is empty,
never raising; occurrences are resolved independently.  Stated as agreement
with the resolver modelled from the amended spec wording, plus the spec's
concrete substitution examples. -/
theorem C3_amended_resolver :
    (∀ text vars, replaceVariables text vars = resolveSpec text vars) ∧
    replaceVariables "{a}-{b}"
        (fun k => if k = "a" then some "X" else if k = "b" then some "Y" else none)
      = "X-Y" ∧
    replaceVariables "{a}{a}" (fun k => if k = "a" then some "Z" else none) = "ZZ" ∧
    replaceVariables "Hello {missing}" (fun _ => none) = "Hello {missing}" := by
  refine ⟨?_, by decide, by decide, by decide⟩
  intro text vars
  unfold replaceVariables resolveSpec
  have h : jsOrStr = specSubst := by
    funext o d
    cases o <;> simp [jsOrStr, specSubst]
  rw [h]

/-- C4: `fillTemplate` leaves its input template unchanged — the value held by
the input reference after the call equals the pre-call value. -/
theorem C4_fill_no_mutation (template : VideoTemplate) (brandStyle : BrandStyle)
    (userInputs : Vars) (r t' : VideoTemplate)
    (h : fillTemplate template brandStyle userInputs = .ok (r, t')) :
    t' = template := by
  unfold fillTemplate at h
  split at h
  · cases h
  · simp only [Except.ok.injEq, Prod.mk.injEq] at h
    exact h.2.symm

theorem C4_fill_no_mutation_witness :
    fillTemplate templateW brandA uiA = .ok (templateW, templateW) ∧
      templateW = templateW :=
  ⟨by rfl, C4_fill_no_mutation templateW brandA uiA templateW templateW (by rfl)⟩

/-- C6 counterexample: with a generator that returns zero results (without
throwing), the compiler does *not* invoke the fallback policy — the section's
trace holds no fallback write and the scene keeps an empty `imagePath` —
whereas with a generator that throws, the fallback canvas is written and
becomes the scene's image. -/
theorem C6_counterexample :
    (processSection envEmptyImages secImage 1 outputScenesDir brandA uiA).map
        (fun p => (p.1.imagePath, p.2.filter isFallbackEvent))
      = .ok ("", []) ∧
    (processSection envThrowImages secImage 1 outputScenesDir brandA uiA).map
        (fun p => (p.1.imagePath, p.2.filter isFallbackEvent))
      = .ok (brandedPath outputScenesDir 1,
             [.fallbackCanvasWrite 1 (brandedPath outputScenesDir 1)]) := by
  constructor
  · rfl
  · rfl

/-- C6 (amended): when `generateImages` returns zero results without throwing,
the compiler silently skips the image element — no fallback is invoked, the
section state is unchanged apart from the recorded generator call, and the
background image stays unset. -/
theorem C6_amended_empty_ignored (env : Env) (element : VideoElement) (i : Nat)
    (out : String) (bs : BrandStyle) (ui : Vars) (st : SectionState) (p : String)
    (hty : element.type = "image") (hp : element.prompt = some p) (hpne : p ≠ "")
    (hgen : env.generateImages (styledPrompt p bs) = .ok []) :
    processElement env element i out bs ui st
      = .ok { st with events := st.events ++ [.imagesRequested (styledPrompt p bs)] } := by
  unfold processElement
  rw [if_neg (by simp [hty]), if_pos hty, hp]
  dsimp only
  rw [if_neg hpne]
  simp only [processImageElement, hgen]

theorem C6_amended_empty_ignored_witness :
    processElement envEmptyImages
        { type := "image", prompt := some "underground club scene" } 1
        outputScenesDir brandA uiA initialSectionState
      = .ok { initialSectionState with
                events := initialSectionState.events ++
                  [.imagesRequested (styledPrompt "underground club scene" brandA)] } :=
  C6_amended_empty_ignored envEmptyImages
    { type := "image", prompt := some "underground club scene" } 1
    outputScenesDir brandA uiA initialSectionState "underground club scene"
    rfl rfl (by decide) (by rfl)

/-- C7 counterexample: with a loadable zero-section template and all other
capabilities healthy, `processTemplate` returns successfully with an *empty*
scene list — no `NoScenesProducedError` (no such error exists in the code). -/
theorem C7_counterexample :
    (processTemplate envEmptyTpl "empty-promo" uiA brandA).map ProcessResult.scenes
      = .ok [] := by
  rfl

/-- C7 (amended): when the filled template has zero sections (and the template
loads, its script is non-empty, the artist thumbnail exists, and audio
generation succeeds), the compiler returns successfully with an empty scene
list, which is handed downstream as-is. -/
theorem C7_amended_empty_sections_ok (env : Env) (templateType : String)
    (ui : Vars) (bs : BrandStyle) (t : VideoTemplate) (audioPath : String)
    (hload : env.loadTemplate templateType = .ok t)
    (hsec : t.sections = [])
    (hscript : t.scriptTemplate ≠ "")
    (hthumb : env.existsSync (thumbnailPath ui) = true)
    (haudio : env.generateAudio (defaultScript ui) = .ok audioPath) :
    processTemplate env templateType ui bs
      = .ok { script := defaultScript ui, scenes := [], audioPath := audioPath
              events := [.defaultSceneWrite (pathJoin outputScenesDir "default_scene.png")] } := by
  unfold processTemplate
  rw [hload]
  dsimp only
  unfold fillTemplate
  rw [if_neg hscript]
  dsimp only
  simp only [hthumb, if_true, hsec, List.map_nil, processSections, haudio,
    List.append_nil]

theorem C7_amended_empty_sections_ok_witness :
    processTemplate envEmptyTpl "empty-promo" uiA brandA
      = .ok { script := defaultScript uiA, scenes := []
              audioPath := "output/audio/promo.mp3"
              events := [.defaultSceneWrite (pathJoin outputScenesDir "default_scene.png")] } :=
  C7_amended_empty_sections_ok envEmptyTpl "empty-promo" uiA brandA templateEmpty
    "output/audio/promo.mp3" (by rfl) (by rfl) (by decide) (by rfl) (by rfl)

/-- C8: on a three-section template with one text element per section and the
scenario-A variables, the compiler calls the overlay renderer with
("AKILA", "HOUSE") for section 0, the quoted mix title for section 1 and
("Underground Existence", "60:00 Live Set") for section 2, each at the
deterministic path `{outputDir}/text_overlay_{i}.png`; the scene durations are
[3, 22, 5]. -/
theorem C8_overlay_dispatch :
    (processTemplate envA "artist-promo" uiA brandA).map
        (fun r => (r.events.filter isOverlayEvent, r.scenes.map SceneConfig.duration))
      = .ok
          ([ .overlayRendered "AKILA" "HOUSE" 1160 1456
               "./output/scenes/text_overlay_0.png"
           , .overlayRendered "\"...Head Ass!!!\"" "" 1160 1456
               "./output/scenes/text_overlay_1.png"
           , .overlayRendered "Underground Existence" "60:00 Live Set" 1160 1456
               "./output/scenes/text_overlay_2.png" ],
           [3, 22, 5]) := by
  decide

/-- C10: when the artist thumbnail file does not exist, `processTemplate`
throws the "Artist thumbnail not found" error before compiling any section —
the outcome is the same error for every behavior of the image generator,
overlay renderer and audio generator, so no scene is produced even when every
section could otherwise be resolved. -/
theorem C10_missing_thumbnail_fatal (env : Env) (templateType : String)
    (ui : Vars) (bs : BrandStyle) (t : VideoTemplate)
    (hload : env.loadTemplate templateType = .ok t)
    (hscript : t.scriptTemplate ≠ "")
    (hex : env.existsSync (thumbnailPath ui) = false) :
    processTemplate env templateType ui bs
      = .error ⟨"Artist thumbnail not found at " ++ thumbnailPath ui ++
                  ". Please ensure the image exists."⟩ ∧
    ∀ (gi : String → Except JsError (List String))
      (go : String → String → String → Except JsError Unit)
      (ga : String → Except JsError String),
      processTemplate
          { env with generateImages := gi, generateTextOverlay := go
                     generateAudio := ga } templateType ui bs
        = .error ⟨"Artist thumbnail not found at " ++ thumbnailPath ui ++
                    ". Please ensure the image exists."⟩ := by
  constructor
  · exact processTemplate_thumb_missing env templateType ui bs t hload hscript hex
  · intro gi go ga
    exact processTemplate_thumb_missing _ templateType ui bs t hload hscript hex

theorem C10_missing_thumbnail_fatal_witness :
    processTemplate envNoFiles "artist-promo" uiA brandA
      = .error ⟨"Artist thumbnail not found at " ++ thumbnailPath uiA ++
                  ". Please ensure the image exists."⟩ :=
  (C10_missing_thumbnail_fatal envNoFiles "artist-promo" uiA brandA templateA
    (by rfl) (by decide) (by rfl)).1

/-- `processSection` succeeds exactly when its element loop does, and then the
scene is `mkScene` of the final loop state. -/
theorem processSection_ok_eq {env : Env} {sec : VideoSection} {i : Nat}
    {out : String} {bs : BrandStyle} {ui : Vars} {scene : SceneConfig}
    {evs : List Event}
    (h : processSection env sec i out bs ui = .ok (scene, evs)) :
    ∃ st, processElements env sec.elements i out bs ui initialSectionState = .ok st ∧
      scene = mkScene sec st ∧ evs = st.events := by
  unfold processSection at h
  cases hpe : processElements env sec.elements i out bs ui initialSectionState with
  | error e => rw [hpe] at h; cases h
  | ok st =>
    rw [hpe] at h
    simp only [Except.ok.injEq, Prod.mk.injEq] at h
    exact ⟨st, rfl, h.1.symm, h.2.symm⟩

/-- C1: when the section loop completes without throwing, it yields exactly one
scene per section, in section-list order: the output list has the sections'
length and the scene at index j is precisely the scene `processSection`
produces for the section at index j (at running index i + j). -/
theorem C1_one_scene_per_section (env : Env) (sections : List VideoSection)
    (i : Nat) (out : String) (bs : BrandStyle) (ui : Vars)
    (scenes : List SceneConfig) (tr : List Event)
    (h : processSections env sections i out bs ui = .ok (scenes, tr)) :
    scenes.length = sections.length ∧
    ∀ j, j < sections.length →
      ∃ sec scene evs, sections[j]? = some sec ∧ scenes[j]? = some scene ∧
        processSection env sec (i + j) out bs ui = .ok (scene, evs) := by
  induction sections generalizing i scenes tr with
  | nil =>
    simp only [processSections, Except.ok.injEq, Prod.mk.injEq] at h
    obtain ⟨h1, _⟩ := h
    subst h1
    exact ⟨rfl, fun j hj => absurd hj (by simp)⟩
  | cons s rest ih =>
    simp only [processSections] at h
    cases hps : processSection env s i out bs ui with
    | error e => rw [hps] at h; cases h
    | ok p =>
      obtain ⟨scene, evs⟩ := p
      rw [hps] at h
      cases hrest : processSections env rest (i + 1) out bs ui with
      | error e => rw [hrest] at h; cases h
      | ok q =>
        obtain ⟨scenes', evs'⟩ := q
        rw [hrest] at h
        simp only [Except.ok.injEq, Prod.mk.injEq] at h
        obtain ⟨hsc, _⟩ := h
        subst hsc
        obtain ⟨ihlen, ihidx⟩ := ih (i + 1) scenes' evs' hrest
        refine ⟨by simp [ihlen], ?_⟩
        intro j hj
        cases j with
        | zero => exact ⟨s, scene, evs, by simp, by simp, by simpa using hps⟩
        | succ j' =>
          have hj' : j' < rest.length := by simpa using hj
          obtain ⟨sec, sc, ev2, h1, h2, h3⟩ := ihidx j' hj'
          refine ⟨sec, sc, ev2, by simpa using h1, by simpa using h2, ?_⟩
          have hidx : i + (j' + 1) = (i + 1) + j' := by omega
          rw [hidx]
          exact h3

theorem C1_one_scene_per_section_witness :
    processSections envA [secW] 0 outputScenesDir brandA uiA = .ok ([sceneW], []) ∧
      ([sceneW] : List SceneConfig).length = [secW].length := by
  have h : processSections envA [secW] 0 outputScenesDir brandA uiA
      = .ok ([sceneW], []) := by decide
  exact ⟨h, (C1_one_scene_per_section envA [secW] 0 outputScenesDir brandA uiA
    [sceneW] [] h).1⟩

/-- C2: when the section loop completes without throwing and every section has
a positive duration, the scenes' durations sum to the sections' durations sum
(each duration is carried through unchanged; the default 3 applies only to an
absent — or zero, unreachable here — duration). -/
theorem C2_duration_conservation (env : Env) (sections : List VideoSection)
    (i : Nat) (out : String) (bs : BrandStyle) (ui : Vars)
    (scenes : List SceneConfig) (tr : List Event)
    (h : processSections env sections i out bs ui = .ok (scenes, tr))
    (hd : ∀ sec ∈ sections, ∃ d : ℚ, sec.duration = some d ∧ 0 < d) :
    (scenes.map SceneConfig.duration).sum
      = (sections.map (fun sec => sec.duration.getD 0)).sum := by
  induction sections generalizing i scenes tr with
  | nil =>
    simp only [processSections, Except.ok.injEq, Prod.mk.injEq] at h
    obtain ⟨h1, _⟩ := h
    subst h1
    rfl
  | cons s rest ih =>
    simp only [processSections] at h
    cases hps : processSection env s i out bs ui with
    | error e => rw [hps] at h; cases h
    | ok p =>
      obtain ⟨scene, evs⟩ := p
      rw [hps] at h
      cases hrest : processSections env rest (i + 1) out bs ui with
      | error e => rw [hrest] at h; cases h
      | ok q =>
        obtain ⟨scenes', evs'⟩ := q
        rw [hrest] at h
        simp only [Except.ok.injEq, Prod.mk.injEq] at h
        obtain ⟨hsc, _⟩ := h
        subst hsc
        obtain ⟨d, hdur, hdpos⟩ := hd s (by simp)
        have hscene : scene.duration = d := by
          obtain ⟨st, _, hsceq, _⟩ := processSection_ok_eq hps
          rw [hsceq]
          simp only [mkScene, jsOrNum, hdur]
          rw [if_neg (by exact ne_of_gt hdpos)]
        have hrest' : (scenes'.map SceneConfig.duration).sum
            = (rest.map (fun sec => sec.duration.getD 0)).sum :=
          ih (i + 1) scenes' evs' hrest (fun sec hsec => hd sec (by simp [hsec]))
        simp only [List.map_cons, List.sum_cons, hscene, hrest', hdur, Option.getD_some]

theorem C2_duration_conservation_witness :
    processSections envA [secW] 0 outputScenesDir brandA uiA = .ok ([sceneW], []) ∧
      (([sceneW] : List SceneConfig).map SceneConfig.duration).sum
        = (([secW] : List VideoSection).map (fun sec => sec.duration.getD 0)).sum := by
  have h : processSections envA [secW] 0 outputScenesDir brandA uiA
      = .ok ([sceneW], []) := by decide
  refine ⟨h, C2_duration_conservation envA [secW] 0 outputScenesDir brandA uiA
    [sceneW] [] h ?_⟩
  intro sec hsec
  simp only [List.mem_singleton] at hsec
  subst hsec
  exact ⟨3, rfl, by norm_num⟩

/-- A successful overlay render appends exactly its trace entry. -/
theorem callOverlay_ok (env : Env)
    (hov : ∀ t s p, env.generateTextOverlay t s p = .ok ())
    (t s p : String) (st : SectionState) :
    callOverlay env t s p st
      = .ok { st with events := st.events ++ [.overlayRendered t s 1160 1456 p] } := by
  unfold callOverlay
  rw [hov]

/-- With a healthy overlay renderer, an all-true filesystem and a present
`artistGenre`, the text branch never throws. -/
theorem processTextElement_ok (env : Env) (ui : Vars) (i : Nat) (out : String)
    (hov : ∀ t s p, env.generateTextOverlay t s p = .ok ())
    (hex : ∀ p, env.existsSync p = true)
    (g : String) (hg : ui "artistGenre" = some g) (st : SectionState) :
    ∃ st', processTextElement env i out ui st = .ok st' := by
  unfold processTextElement
  by_cases h0 : i = 0
  · subst h0
    simp only [if_pos rfl, hg, callOverlay_ok env hov, hex, if_true]
    exact ⟨_, rfl⟩
  · by_cases h1 : i = 1
    · subst h1
      simp only [if_neg h0, if_pos rfl, callOverlay_ok env hov, hex, if_true]
      exact ⟨_, rfl⟩
    · by_cases h2 : i = 2
      · subst h2
        simp only [if_neg h0, if_neg h1, if_pos rfl, callOverlay_ok env hov, hex,
          if_true]
        exact ⟨_, rfl⟩
      · simp only [if_neg h0, if_neg h1, if_neg h2, hex, if_true]
        exact ⟨st, rfl⟩

/-- An element that is not a text element never throws: the image branch
catches its own failures and the background branch is a deterministic write. -/
theorem processElement_nontext_ok (env : Env) (e : VideoElement) (i : Nat)
    (out : String) (bs : BrandStyle) (ui : Vars) (st : SectionState)
    (hty : e.type ≠ "text") :
    ∃ st', processElement env e i out bs ui st = .ok st' := by
  unfold processElement
  rw [if_neg hty]
  by_cases him : e.type = "image"
  · rw [if_pos him]
    cases hp : e.prompt with
    | none => exact ⟨st, rfl⟩
    | some p =>
      dsimp only
      by_cases hpe : p = ""
      · rw [if_pos hpe]; exact ⟨st, rfl⟩
      · rw [if_neg hpe]; exact ⟨_, rfl⟩
  · rw [if_neg him]
    by_cases hbg : e.type = "background"
    · rw [if_pos hbg]
      cases hc : e.color with
      | none => exact ⟨st, rfl⟩
      | some c =>
        dsimp only
        by_cases hce : c = ""
        · rw [if_pos hce]; exact ⟨st, rfl⟩
        · rw [if_neg hce]; exact ⟨_, rfl⟩
    · rw [if_neg hbg]; exact ⟨st, rfl⟩

/-- Under the same healthy-renderer hypotheses, no element throws at all. -/
theorem processElement_ok (env : Env) (ui : Vars)
    (hov : ∀ t s p, env.generateTextOverlay t s p = .ok ())
    (hex : ∀ p, env.existsSync p = true)
    (g : String) (hg : ui "artistGenre" = some g)
    (e : VideoElement) (i : Nat) (out : String) (bs : BrandStyle)
    (st : SectionState) :
    ∃ st', processElement env e i out bs ui st = .ok st' := by
  by_cases hty : e.type = "text"
  · unfold processElement
    rw [if_pos hty]
    exact processTextElement_ok env ui i out hov hex g hg st
  · exact processElement_nontext_ok env e i out bs ui st hty

/-- Under the healthy-renderer hypotheses the whole element loop succeeds. -/
theorem processElements_ok (env : Env) (ui : Vars)
    (hov : ∀ t s p, env.generateTextOverlay t s p = .ok ())
    (hex : ∀ p, env.existsSync p = true)
    (g : String) (hg : ui "artistGenre" = some g)
    (elements : List VideoElement) (i : Nat) (out : String) (bs : BrandStyle)
    (st : SectionState) :
    ∃ st', processElements env elements i out bs ui st = .ok st' := by
  induction elements generalizing st with
  | nil => exact ⟨st, rfl⟩
  | cons e rest ih =>
    obtain ⟨st1, h1⟩ := processElement_ok env ui hov hex g hg e i out bs st
    simp only [processElements, h1]
    exact ih st1

/-- Every appended scene carries a non-empty background color (`'#000000'` at
minimum). -/
theorem mkScene_bgColor_ne (sec : VideoSection) (st : SectionState) :
    (mkScene sec st).bgColor ≠ "" := by
  unfold mkScene
  dsimp only
  by_cases hb : st.bgColor = "" <;> simp [hb]

/-- C5: with an image generator that always throws — and the overlay renderer,
filesystem and `artistGenre` variable healthy — the section loop still returns
one scene per section with no exception, and every returned scene has a
non-empty `imagePath` or a non-empty `bgColor`. -/
theorem C5_fallback_guarantee (env : Env) (sections : List VideoSection)
    (i : Nat) (out : String) (bs : BrandStyle) (ui : Vars)
    (himg : ∀ p, ∃ err, env.generateImages p = .error err)
    (hov : ∀ t s p, env.generateTextOverlay t s p = .ok ())
    (hex : ∀ p, env.existsSync p = true)
    (g : String) (hg : ui "artistGenre" = some g) :
    ∃ scenes tr, processSections env sections i out bs ui = .ok (scenes, tr) ∧
      scenes.length = sections.length ∧
      ∀ scene ∈ scenes, scene.imagePath ≠ "" ∨ scene.bgColor ≠ "" := by
  induction sections generalizing i with
  | nil => exact ⟨[], [], rfl, rfl, by simp⟩
  | cons s rest ih =>
    obtain ⟨st, hst⟩ :=
      processElements_ok env ui hov hex g hg s.elements i out bs initialSectionState
    have hsec : processSection env s i out bs ui = .ok (mkScene s st, st.events) := by
      unfold processSection
      rw [hst]
    obtain ⟨scenes', tr', hrest, hlen, hprop⟩ := ih (i + 1)
    refine ⟨mkScene s st :: scenes', st.events ++ tr', ?_, by simp [hlen], ?_⟩
    · simp only [processSections, hsec, hrest]
    · intro scene hscene
      rcases List.mem_cons.mp hscene with hh | hh
      · subst hh
        exact Or.inr (mkScene_bgColor_ne s st)
      · exact hprop scene hh

theorem C5_fallback_guarantee_witness :
    ∃ scenes tr,
      processSections envThrowImages [secImage, secW] 0 outputScenesDir brandA uiA
        = .ok (scenes, tr) ∧
      scenes.length = 2 ∧
      ∀ scene ∈ scenes, scene.imagePath ≠ "" ∨ scene.bgColor ≠ "" := by
  obtain ⟨scenes, tr, h1, h2, h3⟩ :=
    C5_fallback_guarantee envThrowImages [secImage, secW] 0 outputScenesDir brandA uiA
      (fun _ => ⟨⟨"Rate limit exceeded"⟩, rfl⟩) (fun _ _ _ => rfl) (fun _ => rfl)
      "house" (by decide)
  exact ⟨scenes, tr, h1, by simpa using h2, h3⟩

/-- At a section index of 3 or more, an element's processing is independent of
the overlay renderer: the text branch renders nothing there, and the other
branches never consult the renderer. -/
theorem processElement_renderer_free (env : Env)
    (f : String → String → String → Except JsError Unit)
    (e : VideoElement) (i : Nat) (hi : 3 ≤ i) (out : String) (bs : BrandStyle)
    (ui : Vars) (st : SectionState) :
    processElement { env with generateTextOverlay := f } e i out bs ui st
      = processElement env e i out bs ui st := by
  unfold processElement
  by_cases hty : e.type = "text"
  · rw [if_pos hty, if_pos hty]
    unfold processTextElement
    dsimp only
    have h0 : ¬ i = 0 := by omega
    have h1 : ¬ i = 1 := by omega
    have h2 : ¬ i = 2 := by omega
    rw [if_neg h0, if_neg h1, if_neg h2, if_neg h0, if_neg h1, if_neg h2]
  · rw [if_neg hty, if_neg hty]
    rfl

/-- The element loop at index 3 or more is likewise renderer-independent. -/
theorem processElements_renderer_free (env : Env)
    (f : String → String → String → Except JsError Unit)
    (elements : List VideoElement) (i : Nat) (hi : 3 ≤ i) (out : String)
    (bs : BrandStyle) (ui : Vars) (st : SectionState) :
    processElements { env with generateTextOverlay := f } elements i out bs ui st
      = processElements env elements i out bs ui st := by
  induction elements generalizing st with
  | nil => rfl
  | cons e rest ih =>
    simp only [processElements, processElement_renderer_free env f e i hi out bs ui st]
    cases processElement env e i out bs ui st with
    | error err => rfl
    | ok st' => exact ih st'

/-- The element loop distributes over list append. -/
theorem processElements_append (env : Env) (l1 l2 : List VideoElement) (i : Nat)
    (out : String) (bs : BrandStyle) (ui : Vars) (st : SectionState) :
    processElements env (l1 ++ l2) i out bs ui st
      = match processElements env l1 i out bs ui st with
        | .error e => .error e
        | .ok st' => processElements env l2 i out bs ui st' := by
  induction l1 generalizing st with
  | nil => rfl
  | cons e rest ih =>
    simp only [List.cons_append, processElements]
    cases processElement env e i out bs ui st with
    | error err => rfl
    | ok st' => exact ih st'

/-- The text branch at index 3 or more renders nothing and throws at the
existence check when the overlay file is absent. -/
theorem processTextElement_beyond_error (env : Env) (i : Nat) (hi : 3 ≤ i)
    (out : String) (ui : Vars) (st : SectionState)
    (hex : env.existsSync (overlayPath out i) = false) :
    processTextElement env i out ui st
      = .error ⟨"Failed to generate text overlay: " ++ overlayPath out i⟩ := by
  unfold processTextElement
  dsimp only
  rw [if_neg (by omega : ¬ i = 0), if_neg (by omega : ¬ i = 1),
    if_neg (by omega : ¬ i = 2)]
  simp only [hex, Bool.false_eq_true, if_false]

/-- A list of non-text elements always completes the loop. -/
theorem processElements_nontext_ok (env : Env) (pre : List VideoElement)
    (hpre : ∀ e ∈ pre, e.type ≠ "text") (i : Nat) (out : String)
    (bs : BrandStyle) (ui : Vars) (st : SectionState) :
    ∃ st', processElements env pre i out bs ui st = .ok st' := by
  induction pre generalizing st with
  | nil => exact ⟨st, rfl⟩
  | cons e rest ih =>
    obtain ⟨st1, h1⟩ := processElement_nontext_ok env e i out bs ui st (hpre e (by simp))
    simp only [processElements, h1]
    exact ih (fun e' he' => hpre e' (by simp [he'])) st1

/-- C9: for a section at index 3 or more whose first text element is reached
(the elements before it are non-text), the compiler invokes no overlay renderer
at all (the result is the same for every renderer), throws at the
overlay-existence check when no file exists at the deterministic path, and the
thrown error aborts the processing of all remaining sections. -/
theorem C9_beyond_dispatch_aborts (env : Env) (sec : VideoSection) (i : Nat)
    (out : String) (bs : BrandStyle) (ui : Vars)
    (pre post : List VideoElement) (e : VideoElement)
    (hi : 3 ≤ i)
    (hsplit : sec.elements = pre ++ e :: post)
    (hty : e.type = "text")
    (hpre : ∀ e' ∈ pre, e'.type ≠ "text")
    (hex : env.existsSync (overlayPath out i) = false) :
    (∀ f, processSection { env with generateTextOverlay := f } sec i out bs ui
        = processSection env sec i out bs ui) ∧
    processSection env sec i out bs ui
      = .error ⟨"Failed to generate text overlay: " ++ overlayPath out i⟩ ∧
    ∀ rest, processSections env (sec :: rest) i out bs ui
      = .error ⟨"Failed to generate text overlay: " ++ overlayPath out i⟩ := by
  have herr : processSection env sec i out bs ui
      = .error ⟨"Failed to generate text overlay: " ++ overlayPath out i⟩ := by
    unfold processSection
    rw [hsplit, processElements_append]
    obtain ⟨st1, h1⟩ :=
      processElements_nontext_ok env pre hpre i out bs ui initialSectionState
    rw [h1]
    simp only [processElements, processElement, if_pos hty,
      processTextElement_beyond_error env i hi out ui st1 hex]
  refine ⟨?_, herr, ?_⟩
  · intro f
    unfold processSection
    rw [processElements_renderer_free env f sec.elements i hi out bs ui
      initialSectionState]
  · intro rest
    simp only [processSections, herr]

theorem C9_beyond_dispatch_aborts_witness :
    processSection envNoFiles secBeyond 3 outputScenesDir brandA uiA
      = .error ⟨"Failed to generate text overlay: " ++ overlayPath outputScenesDir 3⟩ :=
  (C9_beyond_dispatch_aborts envNoFiles secBeyond 3 outputScenesDir brandA uiA
    [] [] textElemW (by omega) rfl rfl
    (fun e' he' => absurd he' (List.not_mem_nil e')) rfl).2.1
